import Mathlib

/-!
Verification of the session-error model of the globus-sdk-python repository
(`src/globus_sdk/experimental/session_error/session_error.py`).

Python values are embedded as the inductive `Value` (strings, booleans,
integers, lists, dictionaries, and the value `None`).  Python dictionaries are
embedded as association lists of string keys; a well-formed dictionary has
no duplicate keys (`DictWF`).  Fallible constructors become `Except`-valued
functions, so a validation `ValueError` becomes `.error`.
-/

/-- Embedding of the Python runtime values that flow through the session-error
module: strings, booleans, integers, lists, dictionaries and `None`. -/
inductive Value where
  | str : String → Value
  | bool : Bool → Value
  | int : Int → Value
  | list : List Value → Value
  | dict : List (String × Value) → Value
  | none : Value

/-- Embedding of the Python check `v is None`. -/
def Value.isNone : Value → Bool
  | Value.none => true
  | _ => false

/-- A Python dictionary with string keys, embedded as an association list. -/
abbrev Dict := List (String × Value)

/-- A well-formed Python dictionary has no duplicate keys. -/
def DictWF (d : Dict) : Prop := (d.map Prod.fst).Nodup

instance (d : Dict) : Decidable (DictWF d) := by
  unfold DictWF; infer_instance

/-- Embedding of `d.get(k)`: Python returns `None` when the key is absent. -/
def pyGet (d : Dict) (k : String) : Value :=
  match List.lookup k d with
  | some v => v
  | Option.none => Value.none

/-- Embedding of `d[k] = v`: replace the value in place if present, else
append the pair (Python dictionaries preserve insertion order). -/
def dictSet (d : Dict) (k : String) (v : Value) : Dict :=
  match d with
  | [] => [(k, v)]
  | kv :: rest => if kv.1 = k then (k, v) :: rest else kv :: dictSet rest k v

/-- Embedding of `d.update(e)`: set every pair of `e` into `d` in order. -/
def dictUpdate (d e : Dict) : Dict :=
  e.foldl (fun acc kv => dictSet acc kv.1 kv.2) d

/-- The Python classes used as expected types in `SUPPORTED_FIELDS`. -/
inductive PyType where
  | str
  | list
  | bool
deriving DecidableEq

/-- Embedding of `isinstance(v, ty)` for the three classes used by the
type checks (`bool` is not a `str` or a `list`, and `None` matches nothing). -/
def isinstance : Value → PyType → Bool
  | Value.str _, PyType.str => true
  | Value.list _, PyType.list => true
  | Value.bool _, PyType.bool => true
  | _, _ => false

/-- `GlobusSessionErrorAuthorizationParameters.SUPPORTED_FIELDS`: the six
recognized field names with their declared types. -/
def SUPPORTED_FIELDS : List (String × PyType) :=
  [("session_message", PyType.str),
   ("session_required_identities", PyType.list),
   ("session_required_policies", PyType.list),
   ("session_required_single_domain", PyType.list),
   ("session_required_mfa", PyType.bool),
   ("session_required_scopes", PyType.list)]

/-- Embedding of a constructed `GlobusSessionErrorAuthorizationParameters`
instance: the six recognized fields (possibly `Value.none`) and the stored
extra fields. -/
structure AuthorizationParameters where
  session_message : Value
  session_required_identities : Value
  session_required_policies : Value
  session_required_single_domain : Value
  session_required_mfa : Value
  session_required_scopes : Value
  extra_fields : Dict

/-- Embedding of `getattr(self, name)` for the six recognized field names. -/
def AuthorizationParameters.getattr (p : AuthorizationParameters) (name : String) : Value :=
  if name = "session_message" then p.session_message
  else if name = "session_required_identities" then p.session_required_identities
  else if name = "session_required_policies" then p.session_required_policies
  else if name = "session_required_single_domain" then p.session_required_single_domain
  else if name = "session_required_mfa" then p.session_required_mfa
  else if name = "session_required_scopes" then p.session_required_scopes
  else Value.none

/-- Embedding of `GlobusSessionErrorAuthorizationParameters.__init__`: store
the fields verbatim and `extra or {}`, then raise `ValueError` if all six
recognized fields are `None`, then raise `ValueError` at the first recognized
field whose non-`None` value fails its `isinstance` check. -/
def mkAuthorizationParameters
    (session_message session_required_identities session_required_policies
     session_required_single_domain session_required_mfa session_required_scopes : Value)
    (extra : Option Dict) : Except String AuthorizationParameters :=
  let p : AuthorizationParameters :=
    { session_message := session_message
      session_required_identities := session_required_identities
      session_required_policies := session_required_policies
      session_required_single_domain := session_required_single_domain
      session_required_mfa := session_required_mfa
      session_required_scopes := session_required_scopes
      extra_fields := extra.getD [] }
  if SUPPORTED_FIELDS.all (fun f => (p.getattr f.1).isNone) then
    Except.error "Must include at least one supported authorization parameter"
  else
    match SUPPORTED_FIELDS.find?
        (fun f => !(p.getattr f.1).isNone && !(isinstance (p.getattr f.1) f.2)) with
    | some f => Except.error (f.1 ++ " must be of the declared type")
    | Option.none => Except.ok p

/-- The `extras` comprehension of
`GlobusSessionErrorAuthorizationParameters.from_dict`: every pair whose key is
not in `SUPPORTED_FIELDS`. -/
def apExtras (param_dict : Dict) : Dict :=
  param_dict.filter (fun kv => !(SUPPORTED_FIELDS.any (fun f => f.1 == kv.1)))

/-- Embedding of `GlobusSessionErrorAuthorizationParameters.from_dict`:
partition the mapping into recognized-field values (by `param_dict.get`) and
the remaining pairs (`extras`), then delegate to the constructor. -/
def AuthorizationParameters.from_dict (param_dict : Dict) :
    Except String AuthorizationParameters :=
  let extras := apExtras param_dict
  mkAuthorizationParameters
    (pyGet param_dict "session_message")
    (pyGet param_dict "session_required_identities")
    (pyGet param_dict "session_required_policies")
    (pyGet param_dict "session_required_single_domain")
    (pyGet param_dict "session_required_mfa")
    (pyGet param_dict "session_required_scopes")
    (some extras)

/-- The recognized-field part of `to_dict`: every recognized field whose
stored value is not `None`, set in `SUPPORTED_FIELDS` order. -/
def toDictBase (p : AuthorizationParameters) : Dict :=
  SUPPORTED_FIELDS.foldl
    (fun acc f =>
      if (p.getattr f.1).isNone then acc else dictSet acc f.1 (p.getattr f.1))
    []

/-- Embedding of `GlobusSessionErrorAuthorizationParameters.to_dict`. -/
def AuthorizationParameters.to_dict (p : AuthorizationParameters)
    (include_extra : Bool) : Dict :=
  if include_extra then dictUpdate (toDictBase p) p.extra_fields else toDictBase p

/-- The possible runtime shapes of the `authorization_parameters` argument of
`GlobusSessionError.__init__`: either an already-constructed
`AuthorizationParameters` instance, or any other Python value (a raw mapping,
`None`, or something else). -/
inductive AuthParamsArg where
  | inst : AuthorizationParameters → AuthParamsArg
  | val : Value → AuthParamsArg

/-- Embedding of a constructed `GlobusSessionError` instance. -/
structure GlobusSessionError where
  code : Value
  authorization_parameters : AuthorizationParameters
  extra_fields : Dict

/-- `GlobusSessionError.SUPPORTED_FIELDS`, used only for key partitioning in
`from_dict` (the declared types are never checked by `__init__`). -/
def SE_SUPPORTED_FIELDS : List String := ["code", "authorization_parameters"]

/-- Embedding of `GlobusSessionError.__init__`: raise `ValueError` when
`code is None`; store `extra or {}`; store an `AuthorizationParameters`
instance directly, parse a `dict` via `AuthorizationParameters.from_dict`
(propagating its `ValueError`), and raise `ValueError` on anything else. -/
def mkGlobusSessionError (code : Value) (authorization_parameters : AuthParamsArg)
    (extra : Option Dict) : Except String GlobusSessionError :=
  if code.isNone then
    Except.error "Must have a code"
  else
    let ef := extra.getD []
    match authorization_parameters with
    | AuthParamsArg.inst p =>
      Except.ok { code := code, authorization_parameters := p, extra_fields := ef }
    | AuthParamsArg.val (Value.dict d) =>
      match AuthorizationParameters.from_dict d with
      | Except.ok p =>
        Except.ok { code := code, authorization_parameters := p, extra_fields := ef }
      | Except.error e => Except.error e
    | AuthParamsArg.val _ => Except.error "Must have authorization_parameters"

/-- The `extras` comprehension of `GlobusSessionError.from_dict`: every pair
whose key is not in `GlobusSessionError.SUPPORTED_FIELDS`. -/
def seExtras (error_dict : Dict) : Dict :=
  error_dict.filter (fun kv => !(SE_SUPPORTED_FIELDS.any (fun f => f == kv.1)))

/-- Embedding of `GlobusSessionError.from_dict`: partition the mapping into
the two recognized keys (by `error_dict.get`) and the remaining pairs, then
delegate to the constructor. -/
def GlobusSessionError.from_dict (error_dict : Dict) :
    Except String GlobusSessionError :=
  let extras := seExtras error_dict
  mkGlobusSessionError
    (pyGet error_dict "code")
    (AuthParamsArg.val (pyGet error_dict "authorization_parameters"))
    (some extras)

/-- Embedding of `GlobusSessionError.to_dict`: always emit `code` and the
serialized `authorization_parameters` (with the same `include_extra` flag),
then merge the extra fields when `include_extra` is true. -/
def GlobusSessionError.to_dict (e : GlobusSessionError) (include_extra : Bool) : Dict :=
  let base : Dict :=
    [("code", e.code),
     ("authorization_parameters", Value.dict (e.authorization_parameters.to_dict include_extra))]
  if include_extra then dictUpdate base e.extra_fields else base

/-- The recognized-field entries produced by iterating a field schema with an
attribute reader `g`: one pair per field whose value is not `None`, in schema
order. -/
def entriesOf (fs : List (String × PyType)) (g : String → Value) : Dict :=
  fs.filterMap (fun f => if (g f.1).isNone then Option.none else some (f.1, g f.1))

/-- The two validation guards of
`GlobusSessionErrorAuthorizationParameters.__init__`, as a predicate on the
stored record: some recognized field is not `None`, and no recognized field
fails its type check. -/
def apFieldsOk (p : AuthorizationParameters) : Prop :=
  SUPPORTED_FIELDS.all (fun f => (p.getattr f.1).isNone) = false ∧
  SUPPORTED_FIELDS.find?
    (fun f => !(p.getattr f.1).isNone && !(isinstance (p.getattr f.1) f.2)) = Option.none

/-- Spec-side condition of claim C2: all six recognized fields are null. -/
def allSixNull (a b c d e f : Value) : Prop :=
  a = Value.none ∧ b = Value.none ∧ c = Value.none ∧
  d = Value.none ∧ e = Value.none ∧ f = Value.none

/-- Spec-side condition of claim C2: some non-null recognized field fails its
declared type (text, sequence, sequence, sequence, boolean, sequence). -/
def someFieldWrongType (a b c d e f : Value) : Prop :=
  (a ≠ Value.none ∧ isinstance a PyType.str = false) ∨
  (b ≠ Value.none ∧ isinstance b PyType.list = false) ∨
  (c ≠ Value.none ∧ isinstance c PyType.list = false) ∨
  (d ≠ Value.none ∧ isinstance d PyType.list = false) ∨
  (e ≠ Value.none ∧ isinstance e PyType.bool = false) ∨
  (f ≠ Value.none ∧ isinstance f PyType.list = false)

/-!
Helper lemmas about the embedded dictionary operations.
-/

theorem Value.isNone_iff (v : Value) : v.isNone = true ↔ v = Value.none := by
  cases v <;> simp [Value.isNone]

theorem Value.isNone_false_iff (v : Value) : v.isNone = false ↔ v ≠ Value.none := by
  cases v <;> simp [Value.isNone]

theorem AuthorizationParameters.getattr_session_message (p : AuthorizationParameters) :
    p.getattr "session_message" = p.session_message := rfl

theorem AuthorizationParameters.getattr_session_required_identities (p : AuthorizationParameters) :
    p.getattr "session_required_identities" = p.session_required_identities := rfl

theorem AuthorizationParameters.getattr_session_required_policies (p : AuthorizationParameters) :
    p.getattr "session_required_policies" = p.session_required_policies := rfl

theorem AuthorizationParameters.getattr_session_required_single_domain (p : AuthorizationParameters) :
    p.getattr "session_required_single_domain" = p.session_required_single_domain := rfl

theorem AuthorizationParameters.getattr_session_required_mfa (p : AuthorizationParameters) :
    p.getattr "session_required_mfa" = p.session_required_mfa := rfl

theorem AuthorizationParameters.getattr_session_required_scopes (p : AuthorizationParameters) :
    p.getattr "session_required_scopes" = p.session_required_scopes := rfl

theorem lookup_eq_none_of_not_mem_keys {k : String} {d : Dict}
    (h : k ∉ d.map Prod.fst) : List.lookup k d = Option.none := by
  induction d with
  | nil => rfl
  | cons kv rest ih =>
    obtain ⟨k1, v1⟩ := kv
    simp only [List.map_cons, List.mem_cons, not_or] at h
    have hb : (k == k1) = false := beq_false_of_ne h.1
    simp [List.lookup, hb, ih h.2]

theorem lookup_append_eq_or (k : String) (l1 l2 : Dict) :
    List.lookup k (l1 ++ l2) = (List.lookup k l1).or (List.lookup k l2) := by
  induction l1 with
  | nil => simp [List.lookup]
  | cons kv rest ih =>
    by_cases h : kv.1 = k
    · simp [List.lookup, h]
    · simp [List.lookup, beq_iff_eq, Ne.symm h, ih, beq_false_of_ne (Ne.symm h)]

theorem dictSet_eq_append_of_not_mem {d : Dict} {k : String} (v : Value)
    (h : k ∉ d.map Prod.fst) : dictSet d k v = d ++ [(k, v)] := by
  induction d with
  | nil => rfl
  | cons kv rest ih =>
    simp only [List.map_cons, List.mem_cons, not_or] at h
    simp [dictSet, Ne.symm h.1, ih h.2]

theorem dictUpdate_eq_append {e : Dict} (hnd : (e.map Prod.fst).Nodup) :
    ∀ {d : Dict}, (∀ k ∈ e.map Prod.fst, k ∉ d.map Prod.fst) → dictUpdate d e = d ++ e := by
  induction e with
  | nil => intro d _; simp [dictUpdate]
  | cons kv rest ih =>
    intro d hdisj
    simp only [List.map_cons, List.nodup_cons] at hnd
    have h1 : kv.1 ∉ d.map Prod.fst := hdisj kv.1 (by simp)
    have step : dictUpdate d (kv :: rest) = dictUpdate (d ++ [(kv.1, kv.2)]) rest := by
      simp [dictUpdate, dictSet_eq_append_of_not_mem kv.2 h1]
    rw [step, ih hnd.2]
    · simp
    · intro k hk
      simp only [List.map_append, List.mem_append, List.map_cons, not_or]
      exact ⟨hdisj k (by simp [hk]), by simp; rintro rfl; exact hnd.1 hk⟩

theorem foldl_dictSet_eq (g : String → Value) :
    ∀ (fs : List (String × PyType)) (acc : Dict),
      (fs.map Prod.fst).Nodup →
      (∀ k ∈ fs.map Prod.fst, k ∉ acc.map Prod.fst) →
      fs.foldl (fun a f => if (g f.1).isNone then a else dictSet a f.1 (g f.1)) acc
        = acc ++ entriesOf fs g := by
  intro fs
  induction fs with
  | nil => intro acc _ _; simp [entriesOf]
  | cons f rest ih =>
    intro acc hnd hdisj
    simp only [List.map_cons, List.nodup_cons] at hnd
    by_cases hv : (g f.1).isNone
    · have : entriesOf (f :: rest) g = entriesOf rest g := by simp [entriesOf, hv]
      rw [this]
      simp only [List.foldl_cons, if_pos hv]
      exact ih acc hnd.2 (fun k hk => hdisj k (by simp [hk]))
    · have hf1 : f.1 ∉ acc.map Prod.fst := hdisj f.1 (by simp)
      have : entriesOf (f :: rest) g = (f.1, g f.1) :: entriesOf rest g := by
        simp [entriesOf, hv]
      rw [this]
      simp only [List.foldl_cons, if_neg hv, dictSet_eq_append_of_not_mem _ hf1]
      rw [ih (acc ++ [(f.1, g f.1)]) hnd.2]
      · simp
      · intro k hk
        simp only [List.map_append, List.mem_append, List.map_cons, not_or]
        refine ⟨hdisj k (by simp [hk]), ?_⟩
        simp only [List.map_cons, List.map_nil, List.mem_singleton]
        rintro rfl
        exact hnd.1 hk

theorem toDictBase_eq (p : AuthorizationParameters) :
    toDictBase p = entriesOf SUPPORTED_FIELDS p.getattr := by
  have h := foldl_dictSet_eq p.getattr SUPPORTED_FIELDS [] (by decide) (by simp)
  simpa [toDictBase] using h

theorem keys_entriesOf {fs : List (String × PyType)} {g : String → Value} :
    ∀ k ∈ (entriesOf fs g).map Prod.fst, k ∈ fs.map Prod.fst := by
  intro k hk
  simp only [entriesOf, List.map_filterMap, List.mem_filterMap] at hk
  obtain ⟨f, hf, hopt⟩ := hk
  by_cases hv : (g f.1).isNone
  · simp [hv] at hopt
  · simp only [if_neg hv, Option.map_some] at hopt
    cases hopt
    exact List.mem_map_of_mem Prod.fst hf

theorem lookup_entriesOf {g : String → Value} :
    ∀ (fs : List (String × PyType)), (fs.map Prod.fst).Nodup →
      ∀ name ∈ fs.map Prod.fst,
        List.lookup name (entriesOf fs g)
          = if (g name).isNone then Option.none else some (g name) := by
  intro fs
  induction fs with
  | nil => intro _ name hn; simp at hn
  | cons f rest ih =>
    obtain ⟨fn, ft⟩ := f
    intro hnd name hn
    simp only [List.map_cons, List.nodup_cons] at hnd
    simp only [List.map_cons, List.mem_cons] at hn
    by_cases hv : (g fn).isNone
    · have he : entriesOf ((fn, ft) :: rest) g = entriesOf rest g := by
        simp [entriesOf, hv]
      rw [he]
      rcases hn with rfl | hn
      · rw [if_pos hv]
        apply lookup_eq_none_of_not_mem_keys
        intro hmem
        exact hnd.1 (keys_entriesOf name hmem)
      · exact ih hnd.2 name hn
    · have he : entriesOf ((fn, ft) :: rest) g = (fn, g fn) :: entriesOf rest g := by
        simp [entriesOf, hv]
      rw [he]
      rcases hn with rfl | hn
      · simp [List.lookup, if_neg hv]
      · have hne : (name == fn) = false :=
          beq_false_of_ne (fun h => hnd.1 (h ▸ hn))
        simp [List.lookup, hne, ih hnd.2 name hn]

theorem mkAuthorizationParameters_eq_ok_iff
    (a b c d e f : Value) (ex : Option Dict) (x : AuthorizationParameters) :
    mkAuthorizationParameters a b c d e f ex = Except.ok x ↔
      apFieldsOk ⟨a, b, c, d, e, f, ex.getD []⟩ ∧ x = ⟨a, b, c, d, e, f, ex.getD []⟩ := by
  simp only [mkAuthorizationParameters, apFieldsOk]
  split
  · rename_i h
    simp [h]
  · rename_i h
    rw [Bool.not_eq_true] at h
    split
    · rename_i f' heq
      simp [heq]
    · rename_i heq
      simp [heq, h, eq_comm]

theorem mkAuthorizationParameters_fails_iff
    (a b c d e f : Value) (ex : Option Dict) :
    (∃ msg, mkAuthorizationParameters a b c d e f ex = Except.error msg) ↔
      ¬apFieldsOk ⟨a, b, c, d, e, f, ex.getD []⟩ := by
  constructor
  · rintro ⟨msg, hmsg⟩ hok
    have := (mkAuthorizationParameters_eq_ok_iff a b c d e f ex
      ⟨a, b, c, d, e, f, ex.getD []⟩).2 ⟨hok, rfl⟩
    rw [this] at hmsg
    exact Except.noConfusion hmsg
  · intro hnot
    cases hres : mkAuthorizationParameters a b c d e f ex with
    | error msg => exact ⟨msg, rfl⟩
    | ok x =>
      exact absurd ((mkAuthorizationParameters_eq_ok_iff a b c d e f ex x).1 hres).1 hnot

theorem from_dict_eq_mk (d : Dict) :
    AuthorizationParameters.from_dict d
      = mkAuthorizationParameters
          (pyGet d "session_message")
          (pyGet d "session_required_identities")
          (pyGet d "session_required_policies")
          (pyGet d "session_required_single_domain")
          (pyGet d "session_required_mfa")
          (pyGet d "session_required_scopes")
          (some (apExtras d)) := rfl

theorem mem_apExtras_iff {d : Dict} {kv : String × Value} :
    kv ∈ apExtras d ↔ kv ∈ d ∧ kv.1 ∉ SUPPORTED_FIELDS.map Prod.fst := by
  simp only [apExtras, List.mem_filter, Bool.not_eq_true', List.any_eq_false,
    beq_iff_eq, List.mem_map]
  constructor
  · rintro ⟨hmem, hpred⟩
    refine ⟨hmem, ?_⟩
    rintro ⟨g, hg, hgk⟩
    exact hpred g hg hgk
  · rintro ⟨hmem, hkey⟩
    refine ⟨hmem, ?_⟩
    intro g hg hgk
    exact hkey ⟨g, hg, hgk⟩

theorem keys_apExtras {d : Dict} {k : String}
    (h : k ∈ (apExtras d).map Prod.fst) : k ∉ SUPPORTED_FIELDS.map Prod.fst := by
  simp only [List.mem_map] at h
  obtain ⟨kv, hkv, rfl⟩ := h
  exact (mem_apExtras_iff.1 hkv).2

theorem apExtras_wf {d : Dict} (h : DictWF d) : DictWF (apExtras d) := by
  unfold DictWF at h ⊢
  exact h.sublist ((List.filter_sublist d).map Prod.fst)

theorem mem_seExtras_iff {d : Dict} {kv : String × Value} :
    kv ∈ seExtras d ↔ kv ∈ d ∧ kv.1 ∉ SE_SUPPORTED_FIELDS := by
  simp only [seExtras, List.mem_filter, Bool.not_eq_true', List.any_eq_false,
    beq_iff_eq]
  constructor
  · rintro ⟨hmem, hpred⟩
    exact ⟨hmem, fun hk => hpred kv.1 hk rfl⟩
  · rintro ⟨hmem, hkey⟩
    refine ⟨hmem, ?_⟩
    intro g hg hgk
    exact hkey (hgk ▸ hg)

theorem apFieldsOk_iff (a b c d e f : Value) (ex : Dict) :
    apFieldsOk ⟨a, b, c, d, e, f, ex⟩ ↔
      ¬(allSixNull a b c d e f ∨ someFieldWrongType a b c d e f) := by
  unfold apFieldsOk allSixNull someFieldWrongType
  rw [List.find?_eq_none, ← Bool.not_eq_true, List.all_eq_true]
  simp only [SUPPORTED_FIELDS, List.forall_mem_cons, List.not_mem_nil, false_implies,
    implies_true, and_true,
    AuthorizationParameters.getattr_session_message,
    AuthorizationParameters.getattr_session_required_identities,
    AuthorizationParameters.getattr_session_required_policies,
    AuthorizationParameters.getattr_session_required_single_domain,
    AuthorizationParameters.getattr_session_required_mfa,
    AuthorizationParameters.getattr_session_required_scopes,
    Bool.and_eq_true, Bool.not_eq_true', Value.isNone_iff, Value.isNone_false_iff]
  push_neg
  tauto

theorem mem_of_lookup_some {l : Dict} {k : String} {v : Value}
    (h : List.lookup k l = some v) : (k, v) ∈ l := by
  rcases List.lookup_eq_some_iff.1 h with ⟨l1, l2, rfl, -⟩
  simp

theorem pyGet_eq_none_of_forall {d : Dict} {k : String}
    (h : ∀ kv ∈ d, kv.1 = k → kv.2 = Value.none) : pyGet d k = Value.none := by
  unfold pyGet
  cases hl : List.lookup k d with
  | none => rfl
  | some v => exact h (k, v) (mem_of_lookup_some hl) rfl

theorem from_dict_error_of_all_null (d : Dict)
    (h : ∀ f ∈ SUPPORTED_FIELDS, pyGet d f.1 = Value.none) :
    ∃ msg, AuthorizationParameters.from_dict d = Except.error msg := by
  rw [from_dict_eq_mk, mkAuthorizationParameters_fails_iff]
  rw [apFieldsOk_iff]
  intro hcon
  refine hcon (Or.inl ⟨?_, ?_, ?_, ?_, ?_, ?_⟩)
  · exact h ("session_message", PyType.str) (by simp [SUPPORTED_FIELDS])
  · exact h ("session_required_identities", PyType.list) (by simp [SUPPORTED_FIELDS])
  · exact h ("session_required_policies", PyType.list) (by simp [SUPPORTED_FIELDS])
  · exact h ("session_required_single_domain", PyType.list) (by simp [SUPPORTED_FIELDS])
  · exact h ("session_required_mfa", PyType.bool) (by simp [SUPPORTED_FIELDS])
  · exact h ("session_required_scopes", PyType.list) (by simp [SUPPORTED_FIELDS])

theorem mem_keys_entriesOf {fs : List (String × PyType)} {g : String → Value} {k : String} :
    k ∈ (entriesOf fs g).map Prod.fst ↔ ∃ f ∈ fs, f.1 = k ∧ (g k).isNone = false := by
  simp only [entriesOf, List.map_filterMap, List.mem_filterMap]
  constructor
  · rintro ⟨f, hf, hopt⟩
    by_cases hv : (g f.1).isNone
    · simp [hv] at hopt
    · simp only [if_neg hv, Option.map_some] at hopt
      cases hopt
      exact ⟨f, hf, rfl, by simpa using hv⟩
  · rintro ⟨f, hf, rfl, hv⟩
    refine ⟨f, hf, ?_⟩
    simp [hv]

theorem pyGet_toDictBase_append (p : AuthorizationParameters) (E : Dict)
    (hE : ∀ k ∈ E.map Prod.fst, k ∉ SUPPORTED_FIELDS.map Prod.fst)
    (name : String) (hname : name ∈ SUPPORTED_FIELDS.map Prod.fst) :
    pyGet (toDictBase p ++ E) name = p.getattr name := by
  have hEl : List.lookup name E = Option.none :=
    lookup_eq_none_of_not_mem_keys (fun hmem => hE name hmem hname)
  have hB : List.lookup name (toDictBase p)
      = if (p.getattr name).isNone then Option.none else some (p.getattr name) := by
    rw [toDictBase_eq]
    exact lookup_entriesOf SUPPORTED_FIELDS (by decide) name hname
  unfold pyGet
  rw [lookup_append_eq_or, hB, hEl]
  by_cases hv : (p.getattr name).isNone
  · rw [if_pos hv]
    exact ((Value.isNone_iff _).1 hv).symm
  · rw [if_neg hv]
    rfl

theorem mem_keys_dictSet {d : Dict} {k ks : String} {v : Value}
    (h : ks ∈ (dictSet d k v).map Prod.fst) : ks = k ∨ ks ∈ d.map Prod.fst := by
  induction d with
  | nil => simpa [dictSet] using h
  | cons kv rest ih =>
    by_cases hk : kv.1 = k
    · rw [show dictSet (kv :: rest) k v = (k, v) :: rest from by simp [dictSet, hk]] at h
      simp only [List.map_cons, List.mem_cons] at h ⊢
      tauto
    · rw [show dictSet (kv :: rest) k v = kv :: dictSet rest k v from by simp [dictSet, hk]] at h
      simp only [List.map_cons, List.mem_cons] at h ⊢
      rcases h with h | h
      · tauto
      · rcases ih h with h2 | h2 <;> tauto

theorem mem_keys_dictSet_left {d : Dict} {k ks : String} {v : Value}
    (h : ks ∈ d.map Prod.fst) : ks ∈ (dictSet d k v).map Prod.fst := by
  induction d with
  | nil => simp at h
  | cons kv rest ih =>
    by_cases hk : kv.1 = k
    · rw [show dictSet (kv :: rest) k v = (k, v) :: rest from by simp [dictSet, hk]]
      simp only [List.map_cons, List.mem_cons] at h ⊢
      rcases h with h | h
      · exact Or.inl (h.trans hk)
      · exact Or.inr h
    · rw [show dictSet (kv :: rest) k v = kv :: dictSet rest k v from by simp [dictSet, hk]]
      simp only [List.map_cons, List.mem_cons] at h ⊢
      rcases h with h | h
      · exact Or.inl h
      · exact Or.inr (ih h)

theorem mem_keys_dictUpdate {e : Dict} :
    ∀ {d : Dict} {ks : String}, ks ∈ (dictUpdate d e).map Prod.fst →
      ks ∈ d.map Prod.fst ∨ ks ∈ e.map Prod.fst := by
  induction e with
  | nil => intro d ks h; exact Or.inl h
  | cons kv rest ih =>
    intro d ks h
    rcases ih h with h2 | h2
    · rcases mem_keys_dictSet h2 with rfl | h3
      · exact Or.inr (by simp)
      · exact Or.inl h3
    · exact Or.inr (by simp [h2])

theorem mem_keys_dictUpdate_left {e : Dict} :
    ∀ {d : Dict} {ks : String}, ks ∈ d.map Prod.fst →
      ks ∈ (dictUpdate d e).map Prod.fst := by
  induction e with
  | nil => intro d ks h; exact h
  | cons kv rest ih =>
    intro d ks h
    exact ih (mem_keys_dictSet_left h)

theorem mkSE_code_none {code : Value} (hc : code.isNone = true)
    (ap : AuthParamsArg) (extra : Option Dict) :
    mkGlobusSessionError code ap extra = Except.error "Must have a code" := by
  unfold mkGlobusSessionError
  rw [if_pos hc]

theorem mkSE_inst {code : Value} (hc : code.isNone = false)
    (p : AuthorizationParameters) (extra : Option Dict) :
    mkGlobusSessionError code (AuthParamsArg.inst p) extra
      = Except.ok ⟨code, p, extra.getD []⟩ := by
  unfold mkGlobusSessionError
  rw [if_neg (by simp [hc])]

theorem mkSE_val_dict {code : Value} (hc : code.isNone = false)
    (ad : Dict) (extra : Option Dict) :
    mkGlobusSessionError code (AuthParamsArg.val (Value.dict ad)) extra
      = (AuthorizationParameters.from_dict ad).map
          (fun p => ⟨code, p, extra.getD []⟩) := by
  unfold mkGlobusSessionError
  rw [if_neg (by simp [hc])]
  show (match AuthorizationParameters.from_dict ad with
    | Except.ok p =>
      Except.ok (GlobusSessionError.mk code p (extra.getD []))
    | Except.error e => Except.error e) = _
  cases hfd : AuthorizationParameters.from_dict ad with
  | ok p => rfl
  | error msg => rfl

theorem mkSE_val_other {code : Value} (hc : code.isNone = false)
    (v : Value) (hv : ∀ ad : Dict, v ≠ Value.dict ad) (extra : Option Dict) :
    mkGlobusSessionError code (AuthParamsArg.val v) extra
      = Except.error "Must have authorization_parameters" := by
  unfold mkGlobusSessionError
  rw [if_neg (by simp [hc])]
  cases v with
  | dict ad => exact absurd rfl (hv ad)
  | str s => rfl
  | bool b => rfl
  | int n => rfl
  | list l => rfl
  | none => rfl

theorem se_from_dict_eq_mk (d : Dict) :
    GlobusSessionError.from_dict d
      = mkGlobusSessionError (pyGet d "code")
          (AuthParamsArg.val (pyGet d "authorization_parameters"))
          (some (seExtras d)) := rfl

theorem se_from_dict_ok_elim {d : Dict} {e : GlobusSessionError}
    (h : GlobusSessionError.from_dict d = Except.ok e) :
    e.code = pyGet d "code" ∧ e.extra_fields = seExtras d ∧
    ∃ ad, pyGet d "authorization_parameters" = Value.dict ad ∧
      AuthorizationParameters.from_dict ad = Except.ok e.authorization_parameters := by
  rw [se_from_dict_eq_mk] at h
  by_cases hc : (pyGet d "code").isNone = true
  · rw [mkSE_code_none hc] at h
    exact Except.noConfusion h
  · rw [Bool.not_eq_true] at hc
    cases hv : pyGet d "authorization_parameters" with
    | str s =>
      rw [hv, mkSE_val_other hc _ (fun ad hcon => Value.noConfusion hcon) _] at h
      exact Except.noConfusion h
    | bool b =>
      rw [hv, mkSE_val_other hc _ (fun ad hcon => Value.noConfusion hcon) _] at h
      exact Except.noConfusion h
    | int n =>
      rw [hv, mkSE_val_other hc _ (fun ad hcon => Value.noConfusion hcon) _] at h
      exact Except.noConfusion h
    | list l =>
      rw [hv, mkSE_val_other hc _ (fun ad hcon => Value.noConfusion hcon) _] at h
      exact Except.noConfusion h
    | none =>
      rw [hv, mkSE_val_other hc _ (fun ad hcon => Value.noConfusion hcon) _] at h
      exact Except.noConfusion h
    | dict ad =>
      rw [hv, mkSE_val_dict hc ad _] at h
      cases hfd : AuthorizationParameters.from_dict ad with
      | error msg =>
        rw [hfd] at h
        exact Except.noConfusion h
      | ok p =>
        rw [hfd] at h
        obtain rfl := (Except.ok.inj h).symm
        exact ⟨rfl, rfl, ad, rfl, hfd⟩

/-- Claim C4: constructing a `GlobusSessionError` with a null `code` fails
with a validation error, for every value of `authorization_parameters`
(instance, mapping, null, or anything else) and every `extra`. -/
theorem session_error_code_none_fails (ap : AuthParamsArg) (extra : Option Dict) :
    mkGlobusSessionError Value.none ap extra = Except.error "Must have a code" :=
  mkSE_code_none (show Value.isNone Value.none = true from rfl) ap extra

/-- Claim C5: with a non-null `code`, an already-constructed
`AuthorizationParameters` instance is stored directly unchanged; a raw mapping
is parsed via `AuthorizationParameters.from_dict` with any validation failure
propagated; and a null or otherwise-typed value fails with a validation
error. -/
theorem session_error_auth_params_dispatch (code : Value) (extra : Option Dict)
    (hcode : code ≠ Value.none) :
    (∀ p : AuthorizationParameters,
       mkGlobusSessionError code (AuthParamsArg.inst p) extra
         = Except.ok ⟨code, p, extra.getD []⟩) ∧
    (∀ ad : Dict,
       mkGlobusSessionError code (AuthParamsArg.val (Value.dict ad)) extra
         = (AuthorizationParameters.from_dict ad).map
             (fun p => ⟨code, p, extra.getD []⟩)) ∧
    (∀ v : Value, (∀ ad : Dict, v ≠ Value.dict ad) →
       mkGlobusSessionError code (AuthParamsArg.val v) extra
         = Except.error "Must have authorization_parameters") := by
  have hc : code.isNone = false := (Value.isNone_false_iff code).2 hcode
  exact ⟨fun p => mkSE_inst hc p extra,
    fun ad => mkSE_val_dict hc ad extra,
    fun v hv => mkSE_val_other hc v hv extra⟩

/-- Witness for claim C5 at concrete inputs: an instance argument is stored
unchanged, a raw mapping is parsed, and a null argument fails. -/
theorem session_error_auth_params_dispatch_witness :
    mkGlobusSessionError (Value.str "c")
        (AuthParamsArg.inst
          ⟨Value.str "m", Value.none, Value.none, Value.none, Value.none, Value.none, []⟩)
        Option.none
      = Except.ok ⟨Value.str "c",
          ⟨Value.str "m", Value.none, Value.none, Value.none, Value.none, Value.none, []⟩, []⟩ ∧
    mkGlobusSessionError (Value.str "c")
        (AuthParamsArg.val (Value.dict [("session_required_mfa", Value.bool true)]))
        Option.none
      = (AuthorizationParameters.from_dict [("session_required_mfa", Value.bool true)]).map
          (fun p => ⟨Value.str "c", p, []⟩) ∧
    mkGlobusSessionError (Value.str "c") (AuthParamsArg.val Value.none) Option.none
      = Except.error "Must have authorization_parameters" :=
  ⟨(session_error_auth_params_dispatch (Value.str "c") Option.none
      (fun h => Value.noConfusion h)).1 _,
   (session_error_auth_params_dispatch (Value.str "c") Option.none
      (fun h => Value.noConfusion h)).2.1 _,
   (session_error_auth_params_dispatch (Value.str "c") Option.none
      (fun h => Value.noConfusion h)).2.2 Value.none
      (fun _ h => Value.noConfusion h)⟩

/-- Counterexample to claim C8 as stated: passing an empty mapping to
`AuthorizationParameters.from_dict` does not construct an instance. -/
theorem empty_dict_from_dict_not_ok :
    ¬∃ x, AuthorizationParameters.from_dict [] = Except.ok x := by
  rintro ⟨x, hx⟩
  rw [show AuthorizationParameters.from_dict []
      = Except.error "Must include at least one supported authorization parameter"
    from rfl] at hx
  exact Except.noConfusion hx

/-- Claim C8 as amended: passing an empty mapping to
`AuthorizationParameters.from_dict` fails with the validation error of the
at-least-one-recognized-field invariant. -/
theorem empty_dict_from_dict_fails :
    AuthorizationParameters.from_dict []
      = Except.error "Must include at least one supported authorization parameter" := rfl

/-- Claim C2: construction of `AuthorizationParameters` from explicit fields
fails with a validation error if and only if all six recognized fields are
null or some non-null recognized field has the wrong runtime type; otherwise
it succeeds and stores the six fields verbatim with `extra` defaulting to an
empty mapping. -/
theorem constructor_validation_iff (a b c d e f : Value) (extra : Option Dict) :
    ((∃ msg, mkAuthorizationParameters a b c d e f extra = Except.error msg) ↔
       (allSixNull a b c d e f ∨ someFieldWrongType a b c d e f)) ∧
    (¬(allSixNull a b c d e f ∨ someFieldWrongType a b c d e f) →
       mkAuthorizationParameters a b c d e f extra
         = Except.ok ⟨a, b, c, d, e, f, extra.getD []⟩) := by
  constructor
  · rw [mkAuthorizationParameters_fails_iff, apFieldsOk_iff]
    exact not_not
  · intro h
    rw [mkAuthorizationParameters_eq_ok_iff]
    exact ⟨(apFieldsOk_iff a b c d e f (extra.getD [])).2 h, rfl⟩

/-- Witness for claim C2 at concrete inputs: a text value for
`session_required_mfa` makes construction fail, and a lone text
`session_message` makes construction succeed verbatim. -/
theorem constructor_validation_iff_witness :
    (∃ msg, mkAuthorizationParameters Value.none Value.none Value.none Value.none
        (Value.str "yes") Value.none Option.none = Except.error msg) ∧
    mkAuthorizationParameters (Value.str "m") Value.none Value.none Value.none
        Value.none Value.none Option.none
      = Except.ok ⟨Value.str "m", Value.none, Value.none, Value.none, Value.none,
          Value.none, []⟩ := by
  constructor
  · exact (constructor_validation_iff Value.none Value.none Value.none Value.none
        (Value.str "yes") Value.none Option.none).1.2
      (Or.inr (Or.inr (Or.inr (Or.inr (Or.inr (Or.inl
        ⟨fun h => Value.noConfusion h, rfl⟩))))))
  · exact (constructor_validation_iff (Value.str "m") Value.none Value.none Value.none
        Value.none Value.none Option.none).2
      (by
        rintro (⟨h, -⟩ | hw)
        · exact Value.noConfusion h
        · rcases hw with ⟨-, hi⟩ | ⟨h, -⟩ | ⟨h, -⟩ | ⟨h, -⟩ | ⟨h, -⟩ | ⟨h, -⟩
          · exact Bool.noConfusion hi
          · exact h rfl
          · exact h rfl
          · exact h rfl
          · exact h rfl
          · exact h rfl)

/-- Claim C6: `AuthorizationParameters.from_dict` partitions the mapping into
recognized-field values read by exact key match (null when missing) and the
remaining pairs as extra, delegates to the constructor (so no instance is
returned on failure), and fails when no recognized key is present or all
recognized keys are mapped to null. -/
theorem from_dict_partition (d : Dict) :
    (∀ x, AuthorizationParameters.from_dict d = Except.ok x →
       x.session_message = pyGet d "session_message" ∧
       x.session_required_identities = pyGet d "session_required_identities" ∧
       x.session_required_policies = pyGet d "session_required_policies" ∧
       x.session_required_single_domain = pyGet d "session_required_single_domain" ∧
       x.session_required_mfa = pyGet d "session_required_mfa" ∧
       x.session_required_scopes = pyGet d "session_required_scopes" ∧
       ∀ kv : String × Value, kv ∈ x.extra_fields ↔
         (kv ∈ d ∧ kv.1 ∉ SUPPORTED_FIELDS.map Prod.fst)) ∧
    ((∀ kv ∈ d, kv.1 ∉ SUPPORTED_FIELDS.map Prod.fst) →
       ∃ msg, AuthorizationParameters.from_dict d = Except.error msg) ∧
    ((∀ f ∈ SUPPORTED_FIELDS, pyGet d f.1 = Value.none) →
       ∃ msg, AuthorizationParameters.from_dict d = Except.error msg) := by
  refine ⟨?_, ?_, from_dict_error_of_all_null d⟩
  · intro x hx
    rw [from_dict_eq_mk] at hx
    obtain ⟨-, rfl⟩ := (mkAuthorizationParameters_eq_ok_iff _ _ _ _ _ _ _ _).1 hx
    exact ⟨rfl, rfl, rfl, rfl, rfl, rfl, fun kv => mem_apExtras_iff⟩
  · intro h
    apply from_dict_error_of_all_null
    intro f hf
    apply pyGet_eq_none_of_forall
    intro kv hkv hk
    exact absurd (by rw [hk]; exact List.mem_map_of_mem Prod.fst hf) (h kv hkv)

/-- Witness for claim C6 at concrete inputs: the partition equations hold for
a mixed mapping, and a mapping with no recognized key fails. -/
theorem from_dict_partition_witness :
    ((⟨Value.str "m", Value.none, Value.none, Value.none, Value.none, Value.none,
        [("custom_key", Value.int 1)]⟩ : AuthorizationParameters).session_message
      = pyGet [("session_message", Value.str "m"), ("custom_key", Value.int 1)]
          "session_message") ∧
    (∃ msg, AuthorizationParameters.from_dict [("other_key", Value.int 2)]
      = Except.error msg) :=
  ⟨((from_dict_partition
      [("session_message", Value.str "m"), ("custom_key", Value.int 1)]).1 _ rfl).1,
   (from_dict_partition [("other_key", Value.int 2)]).2.1 (by decide)⟩

/-- Claim C10: a recognized key present but explicitly mapped to null is
treated exactly as if absent: the field is stored as null, the key is not
retained in the extra fields, the key is dropped from every `to_dict` output,
and a mapping whose pairs are all recognized keys mapped to null fails
construction. -/
theorem null_recognized_treated_as_absent (d : Dict) (name : String)
    (hname : name ∈ SUPPORTED_FIELDS.map Prod.fst)
    (hnull : List.lookup name d = some Value.none) :
    (∀ x, AuthorizationParameters.from_dict d = Except.ok x →
       x.getattr name = Value.none ∧
       name ∉ x.extra_fields.map Prod.fst ∧
       ∀ b : Bool, name ∉ (x.to_dict b).map Prod.fst) ∧
    ((∀ kv ∈ d, kv.1 ∈ SUPPORTED_FIELDS.map Prod.fst ∧ kv.2 = Value.none) →
       ∃ msg, AuthorizationParameters.from_dict d = Except.error msg) := by
  have hpy : pyGet d name = Value.none := by unfold pyGet; rw [hnull]
  constructor
  · intro x hx
    rw [from_dict_eq_mk] at hx
    obtain ⟨-, rfl⟩ := (mkAuthorizationParameters_eq_ok_iff _ _ _ _ _ _ _ _).1 hx
    have hget : AuthorizationParameters.getattr
        ⟨pyGet d "session_message", pyGet d "session_required_identities",
         pyGet d "session_required_policies", pyGet d "session_required_single_domain",
         pyGet d "session_required_mfa", pyGet d "session_required_scopes",
         (some (apExtras d)).getD []⟩ name = Value.none := by
      simp only [SUPPORTED_FIELDS, List.map_cons, List.map_nil, List.mem_cons,
        List.not_mem_nil, or_false] at hname
      rcases hname with rfl | rfl | rfl | rfl | rfl | rfl <;> exact hpy
    refine ⟨hget, ?_, ?_⟩
    · intro hmem
      exact keys_apExtras hmem hname
    · intro b hmem
      have hbase : name ∉ (toDictBase
          ⟨pyGet d "session_message", pyGet d "session_required_identities",
           pyGet d "session_required_policies", pyGet d "session_required_single_domain",
           pyGet d "session_required_mfa", pyGet d "session_required_scopes",
           (some (apExtras d)).getD []⟩).map Prod.fst := by
        rw [toDictBase_eq]
        intro hmem2
        obtain ⟨f, hf, rfl, hval⟩ := mem_keys_entriesOf.1 hmem2
        rw [hget] at hval
        exact Bool.noConfusion hval
      cases b with
      | false => exact hbase hmem
      | true =>
        rcases mem_keys_dictUpdate (show name ∈ _ from hmem) with h2 | h2
        · exact hbase h2
        · exact keys_apExtras h2 hname
  · intro h
    apply from_dict_error_of_all_null
    intro f hf
    apply pyGet_eq_none_of_forall
    intro kv hkv hk
    exact (h kv hkv).2

/-- Witness for claim C10 at a concrete input: a mapping carrying
`session_required_mfa` explicitly as null yields an instance with that field
null, no such extra key, and no such key in either `to_dict` output. -/
theorem null_recognized_treated_as_absent_witness :
    (⟨Value.str "m", Value.none, Value.none, Value.none, Value.none, Value.none,
        []⟩ : AuthorizationParameters).getattr "session_required_mfa" = Value.none ∧
    "session_required_mfa" ∉
      ((⟨Value.str "m", Value.none, Value.none, Value.none, Value.none, Value.none,
          []⟩ : AuthorizationParameters).extra_fields).map Prod.fst ∧
    ∀ b : Bool, "session_required_mfa" ∉
      ((⟨Value.str "m", Value.none, Value.none, Value.none, Value.none, Value.none,
          []⟩ : AuthorizationParameters).to_dict b).map Prod.fst :=
  (null_recognized_treated_as_absent
      [("session_message", Value.str "m"), ("session_required_mfa", Value.none)]
      "session_required_mfa" (by decide) rfl).1 _ rfl

/-- Claim C9: instances built via `from_dict` have extra-field keys disjoint
from the recognized names (for both classes), while direct construction does
not enforce this: an extra mapping holding a recognized key is stored as-is,
and `to_dict` with extras then yields the extra value for that key, overriding
the stored recognized field. -/
theorem extra_fields_disjointness :
    (∀ (d : Dict) (x : AuthorizationParameters),
       AuthorizationParameters.from_dict d = Except.ok x →
       ∀ k ∈ x.extra_fields.map Prod.fst, k ∉ SUPPORTED_FIELDS.map Prod.fst) ∧
    (∀ (d : Dict) (e : GlobusSessionError),
       GlobusSessionError.from_dict d = Except.ok e →
       ∀ k ∈ e.extra_fields.map Prod.fst, k ∉ SE_SUPPORTED_FIELDS) ∧
    mkAuthorizationParameters (Value.str "m") Value.none Value.none Value.none
        Value.none Value.none (some [("session_message", Value.int 1)])
      = Except.ok ⟨Value.str "m", Value.none, Value.none, Value.none, Value.none,
          Value.none, [("session_message", Value.int 1)]⟩ ∧
    AuthorizationParameters.to_dict
        ⟨Value.str "m", Value.none, Value.none, Value.none, Value.none, Value.none,
          [("session_message", Value.int 1)]⟩ true
      = [("session_message", Value.int 1)] := by
  refine ⟨?_, ?_, rfl, rfl⟩
  · intro d x hx
    rw [from_dict_eq_mk] at hx
    obtain ⟨-, rfl⟩ := (mkAuthorizationParameters_eq_ok_iff _ _ _ _ _ _ _ _).1 hx
    intro k hk
    exact keys_apExtras hk
  · intro d e he
    obtain ⟨-, hextra, -⟩ := se_from_dict_ok_elim he
    intro k hk
    rw [hextra] at hk
    simp only [List.mem_map] at hk
    obtain ⟨kv, hkv, rfl⟩ := hk
    exact (mem_seExtras_iff.1 hkv).2

/-- Witness for claim C9 at a concrete input: the unrecognized key of a
`from_dict`-built instance is not a recognized name. -/
theorem extra_fields_disjointness_witness :
    "custom_key" ∉ SUPPORTED_FIELDS.map Prod.fst :=
  extra_fields_disjointness.1
    [("session_message", Value.str "m"), ("custom_key", Value.int 1)]
    ⟨Value.str "m", Value.none, Value.none, Value.none, Value.none, Value.none,
      [("custom_key", Value.int 1)]⟩ rfl "custom_key" (by decide)

/-- Counterexample to claim C3 as stated: a successfully constructed instance
whose extra mapping holds the recognized key `session_message` has a
`to_dict(include_extra=True)` output that does not contain the stored
non-null `session_message` value (the extra value overrides it). -/
theorem to_dict_collision_counterexample :
    mkAuthorizationParameters (Value.str "m") Value.none Value.none Value.none
        Value.none Value.none (some [("session_message", Value.bool false)])
      = Except.ok ⟨Value.str "m", Value.none, Value.none, Value.none, Value.none,
          Value.none, [("session_message", Value.bool false)]⟩ ∧
    List.lookup "session_message"
        (AuthorizationParameters.to_dict
          ⟨Value.str "m", Value.none, Value.none, Value.none, Value.none, Value.none,
            [("session_message", Value.bool false)]⟩ true)
      ≠ some (Value.str "m") :=
  ⟨rfl, fun h => Value.noConfusion (Option.some.inj h)⟩

/-- Claim C3 (amended): for every successfully constructed instance whose
stored extra keys are well-formed and disjoint from the recognized field
names (as holds for every `from_dict`-built instance), `to_dict` contains
every non-null recognized field under its name, no null recognized field, and
the stored extra fields exactly when `include_extra` is true; the concrete
example of the claim holds as stated. -/
theorem to_dict_contract (p : AuthorizationParameters) (ie : Bool)
    (hwf : DictWF p.extra_fields)
    (hdisj : ∀ k ∈ p.extra_fields.map Prod.fst, k ∉ SUPPORTED_FIELDS.map Prod.fst) :
    (∀ f ∈ SUPPORTED_FIELDS, p.getattr f.1 ≠ Value.none →
       List.lookup f.1 (p.to_dict ie) = some (p.getattr f.1)) ∧
    (∀ f ∈ SUPPORTED_FIELDS, p.getattr f.1 = Value.none →
       f.1 ∉ (p.to_dict ie).map Prod.fst) ∧
    (ie = true → ∀ kv ∈ p.extra_fields, kv ∈ p.to_dict ie) ∧
    (ie = false → ∀ kv ∈ p.extra_fields, kv.1 ∉ (p.to_dict ie).map Prod.fst) ∧
    (AuthorizationParameters.from_dict
        [("session_message", Value.str "m"), ("custom_key", Value.int 1)]
      = Except.ok ⟨Value.str "m", Value.none, Value.none, Value.none, Value.none,
          Value.none, [("custom_key", Value.int 1)]⟩) ∧
    (AuthorizationParameters.to_dict
        ⟨Value.str "m", Value.none, Value.none, Value.none, Value.none, Value.none,
          [("custom_key", Value.int 1)]⟩ false = [("session_message", Value.str "m")]) ∧
    (AuthorizationParameters.to_dict
        ⟨Value.str "m", Value.none, Value.none, Value.none, Value.none, Value.none,
          [("custom_key", Value.int 1)]⟩ true
      = [("session_message", Value.str "m"), ("custom_key", Value.int 1)]) := by
  have hupd : p.to_dict true = toDictBase p ++ p.extra_fields := by
    show dictUpdate (toDictBase p) p.extra_fields = _
    apply dictUpdate_eq_append hwf
    intro k hk hkB
    rw [toDictBase_eq] at hkB
    obtain ⟨f, hf, rfl, -⟩ := mem_keys_entriesOf.1 hkB
    exact hdisj _ hk (List.mem_map_of_mem Prod.fst hf)
  have hbase_lookup : ∀ f ∈ SUPPORTED_FIELDS,
      List.lookup f.1 (toDictBase p)
        = if (p.getattr f.1).isNone then Option.none else some (p.getattr f.1) := by
    intro f hf
    rw [toDictBase_eq]
    exact lookup_entriesOf SUPPORTED_FIELDS (by decide) f.1
      (List.mem_map_of_mem Prod.fst hf)
  have hbase_keys : ∀ f ∈ SUPPORTED_FIELDS, p.getattr f.1 = Value.none →
      f.1 ∉ (toDictBase p).map Prod.fst := by
    intro f hf heq hmem
    rw [toDictBase_eq] at hmem
    obtain ⟨g, hg, -, hval⟩ := mem_keys_entriesOf.1 hmem
    rw [(Value.isNone_iff _).2 heq] at hval
    exact Bool.noConfusion hval
  refine ⟨?_, ?_, ?_, ?_, rfl, rfl, rfl⟩
  · intro f hf hne
    have hne' : ¬((p.getattr f.1).isNone = true) := by
      rw [Bool.not_eq_true, Value.isNone_false_iff]
      exact hne
    cases ie with
    | false =>
      show List.lookup f.1 (toDictBase p) = some (p.getattr f.1)
      rw [hbase_lookup f hf, if_neg hne']
    | true =>
      rw [hupd, lookup_append_eq_or, hbase_lookup f hf, if_neg hne']
      rfl
  · intro f hf heq
    cases ie with
    | false => exact hbase_keys f hf heq
    | true =>
      rw [hupd]
      intro hmem
      rw [List.map_append, List.mem_append] at hmem
      rcases hmem with hmem | hmem
      · exact hbase_keys f hf heq hmem
      · exact hdisj _ hmem (List.mem_map_of_mem Prod.fst hf)
  · rintro rfl kv hkv
    rw [hupd]
    exact List.mem_append_right _ hkv
  · rintro rfl kv hkv
    show kv.1 ∉ (toDictBase p).map Prod.fst
    intro hmem
    rw [toDictBase_eq] at hmem
    obtain ⟨g, hg, hgeq, -⟩ := mem_keys_entriesOf.1 hmem
    exact hdisj _ (List.mem_map_of_mem Prod.fst hkv)
      (hgeq ▸ List.mem_map_of_mem Prod.fst hg)

/-- Witness for claim C3 at a concrete input: the stored non-null
`session_message` is found in the `to_dict` output of a disjoint-extras
instance. -/
theorem to_dict_contract_witness :
    List.lookup "session_message"
        (AuthorizationParameters.to_dict
          ⟨Value.str "m", Value.none, Value.none, Value.none, Value.none, Value.none,
            [("custom_key", Value.int 1)]⟩ true)
      = some (Value.str "m") :=
  (to_dict_contract
      ⟨Value.str "m", Value.none, Value.none, Value.none, Value.none, Value.none,
        [("custom_key", Value.int 1)]⟩ true (by decide) (by decide)).1
    ("session_message", PyType.str) (by decide) (fun h => Value.noConfusion h)

/-- Claim C7: `GlobusSessionError.to_dict` always carries the keys `code` and
`authorization_parameters`, serializes the nested parameters with the same
`include_extra` flag, and merges the top-level extra fields exactly when
`include_extra` is true; the concrete round-trip example of the claim holds. -/
theorem session_error_to_dict_contract (e : GlobusSessionError) (ie : Bool) :
    e.to_dict ie
      = dictUpdate
          [("code", e.code),
           ("authorization_parameters",
             Value.dict (e.authorization_parameters.to_dict ie))]
          (if ie then e.extra_fields else []) ∧
    "code" ∈ (e.to_dict ie).map Prod.fst ∧
    "authorization_parameters" ∈ (e.to_dict ie).map Prod.fst ∧
    GlobusSessionError.from_dict
        [("code", Value.str "c"),
         ("authorization_parameters",
           Value.dict [("session_required_mfa", Value.bool true)]),
         ("extra_x", Value.int 5)]
      = Except.ok ⟨Value.str "c",
          ⟨Value.none, Value.none, Value.none, Value.none, Value.bool true, Value.none,
            []⟩,
          [("extra_x", Value.int 5)]⟩ ∧
    GlobusSessionError.to_dict
        ⟨Value.str "c",
          ⟨Value.none, Value.none, Value.none, Value.none, Value.bool true, Value.none,
            []⟩,
          [("extra_x", Value.int 5)]⟩ true
      = [("code", Value.str "c"),
         ("authorization_parameters",
           Value.dict [("session_required_mfa", Value.bool true)]),
         ("extra_x", Value.int 5)] := by
  have hfalse : e.to_dict false
      = [("code", e.code),
         ("authorization_parameters",
           Value.dict (e.authorization_parameters.to_dict false))] := rfl
  have htrue : e.to_dict true
      = dictUpdate
          [("code", e.code),
           ("authorization_parameters",
             Value.dict (e.authorization_parameters.to_dict true))]
          e.extra_fields := rfl
  refine ⟨?_, ?_, ?_, rfl, rfl⟩
  · cases ie with
    | false => exact hfalse
    | true => exact htrue
  · cases ie with
    | false => rw [hfalse]; simp
    | true => rw [htrue]; exact mem_keys_dictUpdate_left (by simp)
  · cases ie with
    | false => rw [hfalse]; simp
    | true => rw [htrue]; exact mem_keys_dictUpdate_left (by simp)

theorem apExtras_pred_iff (k : String) :
    (!(SUPPORTED_FIELDS.any (fun f => f.1 == k))) = true ↔
      k ∉ SUPPORTED_FIELDS.map Prod.fst := by
  simp only [Bool.not_eq_true', List.any_eq_false, beq_iff_eq, List.mem_map]
  constructor
  · intro h hex
    obtain ⟨g, hg, hgk⟩ := hex
    exact h g hg hgk
  · intro h g hg hgk
    exact h ⟨g, hg, hgk⟩

theorem to_dict_true_eq_append (p : AuthorizationParameters)
    (hwfE : DictWF p.extra_fields)
    (hE : ∀ k ∈ p.extra_fields.map Prod.fst, k ∉ SUPPORTED_FIELDS.map Prod.fst) :
    p.to_dict true = toDictBase p ++ p.extra_fields := by
  show dictUpdate (toDictBase p) p.extra_fields = _
  apply dictUpdate_eq_append hwfE
  intro k hk hkB
  rw [toDictBase_eq] at hkB
  obtain ⟨f, hf, hfeq, -⟩ := mem_keys_entriesOf.1 hkB
  exact hE _ hk (hfeq ▸ List.mem_map_of_mem Prod.fst hf)

theorem roundtrip_core (p : AuthorizationParameters)
    (hwfE : DictWF p.extra_fields)
    (hE : ∀ k ∈ p.extra_fields.map Prod.fst, k ∉ SUPPORTED_FIELDS.map Prod.fst)
    (hok : apFieldsOk p) :
    AuthorizationParameters.from_dict (p.to_dict true) = Except.ok p := by
  rw [to_dict_true_eq_append p hwfE hE, from_dict_eq_mk,
    mkAuthorizationParameters_eq_ok_iff]
  have hget := pyGet_toDictBase_append p p.extra_fields hE
  have hext : apExtras (toDictBase p ++ p.extra_fields) = p.extra_fields := by
    unfold apExtras
    rw [List.filter_append]
    have h1 : (toDictBase p).filter
        (fun kv => !(SUPPORTED_FIELDS.any (fun f => f.1 == kv.1))) = [] := by
      rw [List.filter_eq_nil_iff]
      intro kv hkv hpred
      have hsup : kv.1 ∈ SUPPORTED_FIELDS.map Prod.fst := by
        have hmem := List.mem_map_of_mem Prod.fst hkv
        rw [toDictBase_eq] at hmem
        obtain ⟨g, hg, hgeq, -⟩ := mem_keys_entriesOf.1 hmem
        exact hgeq ▸ List.mem_map_of_mem Prod.fst hg
      exact (apExtras_pred_iff kv.1).1 hpred hsup
    have h2 : p.extra_fields.filter
        (fun kv => !(SUPPORTED_FIELDS.any (fun f => f.1 == kv.1))) = p.extra_fields := by
      rw [List.filter_eq_self]
      intro kv hkv
      exact (apExtras_pred_iff kv.1).2 (hE kv.1 (List.mem_map_of_mem Prod.fst hkv))
    rw [h1, h2]
    simp
  have hrec : (⟨pyGet (toDictBase p ++ p.extra_fields) "session_message",
      pyGet (toDictBase p ++ p.extra_fields) "session_required_identities",
      pyGet (toDictBase p ++ p.extra_fields) "session_required_policies",
      pyGet (toDictBase p ++ p.extra_fields) "session_required_single_domain",
      pyGet (toDictBase p ++ p.extra_fields) "session_required_mfa",
      pyGet (toDictBase p ++ p.extra_fields) "session_required_scopes",
      (some (apExtras (toDictBase p ++ p.extra_fields))).getD []⟩ :
        AuthorizationParameters) = p := by
    rw [hget "session_message" (by decide),
      hget "session_required_identities" (by decide),
      hget "session_required_policies" (by decide),
      hget "session_required_single_domain" (by decide),
      hget "session_required_mfa" (by decide),
      hget "session_required_scopes" (by decide), hext,
      AuthorizationParameters.getattr_session_message,
      AuthorizationParameters.getattr_session_required_identities,
      AuthorizationParameters.getattr_session_required_policies,
      AuthorizationParameters.getattr_session_required_single_domain,
      AuthorizationParameters.getattr_session_required_mfa,
      AuthorizationParameters.getattr_session_required_scopes]
    rfl
  constructor
  · rw [hrec]
    exact hok
  · exact hrec.symm

/-- Claim C1: for every well-formed mapping accepted by `from_dict`, feeding
`to_dict(include_extra=True)` of the result back through `from_dict` succeeds
and reproduces the same instance (same six recognized fields, same extra
fields). -/
theorem from_dict_to_dict_roundtrip (d : Dict) (x : AuthorizationParameters)
    (hwf : DictWF d)
    (h : AuthorizationParameters.from_dict d = Except.ok x) :
    AuthorizationParameters.from_dict (x.to_dict true) = Except.ok x := by
  rw [from_dict_eq_mk] at h
  obtain ⟨hok, rfl⟩ := (mkAuthorizationParameters_eq_ok_iff _ _ _ _ _ _ _ _).1 h
  apply roundtrip_core
  · exact apExtras_wf hwf
  · intro k hk
    exact keys_apExtras hk
  · exact hok

/-- Witness for claim C1 at a concrete input: a mapping with one recognized
field and one custom field round-trips through `to_dict` and `from_dict`. -/
theorem from_dict_to_dict_roundtrip_witness :
    AuthorizationParameters.from_dict
        ((⟨Value.str "m", Value.none, Value.none, Value.none, Value.none, Value.none,
            [("custom_key", Value.int 1)]⟩ : AuthorizationParameters).to_dict true)
      = Except.ok ⟨Value.str "m", Value.none, Value.none, Value.none, Value.none,
          Value.none, [("custom_key", Value.int 1)]⟩ :=
  from_dict_to_dict_roundtrip
    [("session_message", Value.str "m"), ("custom_key", Value.int 1)] _ (by decide) rfl
